import Mathlib

/-
Verification of the BankNifty option-scanner engine (gdfl_scanner.py).
The pure core is embedded shallowly: prices are rationals, open interest
is an integer, symbols are strings, and the per-tick processing function
returns the updated scanner state together with an optional alert event.
-/

namespace BankNiftyScanner

/-- Boolean test that the first list is a prefix of the second,
written out structurally so the kernel can evaluate it. -/
def prefEq : List Char → List Char → Bool
  | [], _ => true
  | _ :: _, [] => false
  | a :: as, b :: bs => a == b && prefEq as bs

/-- Boolean substring test: subStr needle hay is true when needle occurs
contiguously inside hay.  Embeds the Python expression needle in hay. -/
def subStr : List Char → List Char → Bool
  | n, [] => n.isEmpty
  | n, c :: t => prefEq n (c :: t) || subStr n t

/-- containsStr hay needle embeds the Python membership test
needle in hay on strings. -/
def containsStr (hay needle : String) : Bool := subStr needle.data hay.data

/-- Monitored instrument list, from the SYMBOLS_TO_MONITOR configuration
constant of gdfl_scanner.py (options plus the four future contracts). -/
def SYMBOLS_TO_MONITOR : List String := [
  "BANKNIFTY27JAN2660000CE", "BANKNIFTY27JAN2660000PE",
  "BANKNIFTY27JAN2659900CE", "BANKNIFTY27JAN2659900PE",
  "BANKNIFTY27JAN2659800CE", "BANKNIFTY27JAN2659800PE",
  "BANKNIFTY27JAN2659700CE", "BANKNIFTY27JAN2659700PE",
  "BANKNIFTY27JAN2659600CE", "BANKNIFTY27JAN2659600PE",
  "BANKNIFTY27JAN2659500CE", "BANKNIFTY27JAN2659500PE",
  "BANKNIFTY27JAN2660100CE", "BANKNIFTY27JAN2660100PE",
  "BANKNIFTY27JAN2660200CE", "BANKNIFTY27JAN2660200PE",
  "BANKNIFTY27JAN2660300CE", "BANKNIFTY27JAN2660300PE",
  "BANKNIFTY27JAN2660400CE", "BANKNIFTY27JAN2660400PE",
  "BANKNIFTY27JAN2660500CE", "BANKNIFTY27JAN2660500PE",
  "HDFCBANK27JAN26980CE", "HDFCBANK27JAN26980PE",
  "HDFCBANK27JAN26975CE", "HDFCBANK27JAN26975PE",
  "HDFCBANK27JAN26970CE", "HDFCBANK27JAN26970PE",
  "HDFCBANK27JAN26985CE", "HDFCBANK27JAN26985PE",
  "HDFCBANK27JAN26990CE", "HDFCBANK27JAN26990PE",
  "ICICIBANK27JAN261370CE", "ICICIBANK27JAN261370PE",
  "ICICIBANK27JAN261360CE", "ICICIBANK27JAN261360PE",
  "ICICIBANK27JAN261350CE", "ICICIBANK27JAN261350PE",
  "ICICIBANK27JAN261380CE", "ICICIBANK27JAN261380PE",
  "ICICIBANK27JAN261390CE", "ICICIBANK27JAN261390PE",
  "SBIN27JAN261005CE", "SBIN27JAN261005PE",
  "SBIN27JAN261000CE", "SBIN27JAN261000PE",
  "SBIN27JAN26995CE", "SBIN27JAN26995PE",
  "SBIN27JAN261010CE", "SBIN27JAN261010PE",
  "SBIN27JAN261015CE", "SBIN27JAN261015PE",
  "BANKNIFTY27JAN26FUT", "HDFCBANK27JAN26FUT",
  "ICICIBANK27JAN26FUT", "SBIN27JAN26FUT"]

/-- Per-underlying lot sizes, in the insertion order of the Python dict
LOT_SIZES (the scan over items respects this order). -/
def LOT_SIZES : List (String × Nat) :=
  [("BANKNIFTY", 30), ("HDFCBANK", 550), ("ICICIBANK", 700), ("SBIN", 750)]

/-- Default lot size used when no configured underlying name occurs in the
symbol, from DEFAULT_LOT_SIZE in gdfl_scanner.py. -/
def DEFAULT_LOT_SIZE : Nat := 75

/-- Alert threshold on the absolute OI rate of change, in percent,
from OI_ROC_THRESHOLD in gdfl_scanner.py. -/
def OI_ROC_THRESHOLD : ℚ := 2

/-- Per-symbol mutable record of gdfl_scanner.py: current and previous
last-trade price and open interest. -/
structure SymbolState where
  price : ℚ
  price_prev : ℚ
  oi : ℤ
  oi_prev : ℤ
deriving DecidableEq

/-- Initial per-symbol record: all four fields zero, as allocated at
process start for every monitored symbol. -/
def initialSymbolState : SymbolState :=
  { price := 0, price_prev := 0, oi := 0, oi_prev := 0 }

/-- The four configured underlyings of the future-price cache. -/
inductive Underlying
  | HDFCBANK
  | ICICIBANK
  | SBIN
  | BANKNIFTY
deriving DecidableEq

/-- Identification of the underlying from a symbol by substring scan, in
the order of the elif chain shared by get_option_moneyness and the
future branch of process_data: HDFCBANK, ICICIBANK, SBIN, BANKNIFTY. -/
def identifyUnderlying (symbol : String) : Option Underlying :=
  if containsStr symbol "HDFCBANK" then some Underlying.HDFCBANK
  else if containsStr symbol "ICICIBANK" then some Underlying.ICICIBANK
  else if containsStr symbol "SBIN" then some Underlying.SBIN
  else if containsStr symbol "BANKNIFTY" then some Underlying.BANKNIFTY
  else none

/-- Lot-size resolution generalised over the configuration: the size of
the first table entry whose name occurs in the symbol, else the default.
Embeds the loop with break of lots_from_oi_change. -/
def resolveLotSizeGen (lotSizes : List (String × Nat)) (deflt : Nat)
    (symbol : String) : Nat :=
  match lotSizes.find? (fun p => containsStr symbol p.1) with
  | some p => p.2
  | none => deflt

/-- Lot count from an OI change, generalised over the lot-size table:
guard a zero lot size to 0 lots, otherwise floor of the absolute OI
change divided by the lot size.  Embeds lots_from_oi_change, whose
int(abs(x)/lot_size) truncates a non-negative quotient, hence floor. -/
def lots_from_oi_change_gen (lotSizes : List (String × Nat)) (deflt : Nat)
    (symbol : String) (oi_change : ℤ) : Nat :=
  let lot_size := resolveLotSizeGen lotSizes deflt symbol
  if lot_size = 0 then 0 else oi_change.natAbs / lot_size

/-- lots_from_oi_change of gdfl_scanner.py at the configured table. -/
def lots_from_oi_change (symbol : String) (oi_change : ℤ) : Nat :=
  lots_from_oi_change_gen LOT_SIZES DEFAULT_LOT_SIZE symbol oi_change

/-- Qualitative size bucket of a lot count, from lot_bucket. -/
def lot_bucket (lots : Nat) : String :=
  if 200 ≤ lots then "EXTREME HIGH"
  else if 150 ≤ lots then "EXTRA HIGH"
  else if 100 ≤ lots then "HIGH"
  else if 75 ≤ lots then "MEDIUM"
  else if 1 ≤ lots then "LOW"
  else "IGNORE"

/-- Directional classification of an OI change and a price change, from
classify_option.  The symbol argument is accepted and ignored exactly as
in the source.  When price_change is zero and oi_change is zero the
Python body falls through both inner branches to the final return, which
the inner else models. -/
def classify_option (oi_change : ℤ) (price_change : ℚ) (_symbol : String) :
    String :=
  if price_change = 0 then
    if 0 < oi_change then "WRITING / HEDGING"
    else if oi_change < 0 then "POSITION UNWINDING / PROFIT BOOKING"
    else "Indecisive Movement"
  else if 0 < oi_change then
    if 0 < price_change then "BUYERS DOMINANT (LONG BUILD-UP)"
    else "WRITERS DOMINANT (SHORT / PUT WRITING)"
  else if oi_change < 0 then
    if 0 < price_change then "SHORT COVERING"
    else "LONG UNWINDING"
  else "Indecisive Movement"

/-- Option type parsed from the two-letter suffix. -/
inductive OptType
  | CE
  | PE
deriving DecidableEq

/-- Numeric value of a decimal digit character. -/
def digitVal (c : Char) : Nat := c.toNat - 48

/-- Decimal value of a big-endian digit string, as computed by the Python
int() conversion of the matched group. -/
def natOfDigits (cs : List Char) : Nat :=
  cs.foldl (fun a c => a * 10 + digitVal c) 0

/-- Shared tail of the strike parser: rest is the reversed part of the
symbol before the CE or PE suffix.  The regex semantics require the
maximal digit run immediately before the suffix to hold at least three
digits (two for the year group, at least one for the strike group); the
strike group is that run without its first two digits. -/
def parseRun (rest : List Char) (ty : OptType) : Option (Nat × OptType) :=
  let runRev := rest.takeWhile Char.isDigit
  if 3 ≤ runRev.length then
    some (natOfDigits ((runRev.reverse).drop 2), ty)
  else none

/-- Strike parser on the reversed character list: the symbol must end in
CE or PE, preceded by the digit run handled by parseRun. -/
def parseTail : List Char → Option (Nat × OptType)
  | 'E' :: 'C' :: rest => parseRun rest OptType.CE
  | 'E' :: 'P' :: rest => parseRun rest OptType.PE
  | _ => none

/-- Strike and option-type extraction, embedding the regex search
.*?(d2)(d+)(CE or PE)$ of gdfl_scanner.py on a symbol: the match exists
exactly when the symbol ends in CE or PE preceded by a maximal run of at
least three decimal digits, and the returned strike is the value of that
run without its first two digits. -/
def parseStrikeType (s : String) : Option (Nat × OptType) :=
  parseTail s.data.reverse

/-- Moneyness classification from get_option_moneyness: future symbols
and unidentifiable underlyings give N/A; a zero (unknown) future price
gives OTM before any parsing; an unparseable symbol gives N/A; otherwise
the ATM band is half a percent of the future price, then the ITM test,
else OTM. -/
def get_option_moneyness (symbol : String) (future_prices : Underlying → ℚ) :
    String :=
  if containsStr symbol "FUT" then "N/A"
  else
    match identifyUnderlying symbol with
    | none => "N/A"
    | some underlying =>
      let future_price := future_prices underlying
      if future_price = 0 then "OTM"
      else
        match parseStrikeType symbol with
        | none => "N/A"
        | some (strike_price, option_type) =>
          let atm_band := future_price * (5 / 1000 : ℚ)
          if |future_price - (strike_price : ℚ)| ≤ atm_band then "ATM"
          else if (option_type = OptType.CE ∧ (strike_price : ℚ) < future_price)
              ∨ (option_type = OptType.PE ∧ future_price < (strike_price : ℚ))
            then "ITM"
          else "OTM"

/-- OI rate of change in percent with the zero-divisor fallback of the
try and except block of process_data: a zero previous OI yields 0.0
instead of an error. -/
def oi_roc_of (oi_chg oi_prev : ℤ) : ℚ :=
  if oi_prev = 0 then 0 else ((oi_chg : ℚ) / (oi_prev : ℚ)) * 100

/-- Inbound tick record: each field embeds a dict.get that may be
absent. -/
structure Tick where
  InstrumentIdentifier : Option String
  LastTradePrice : Option ℚ
  OpenInterest : Option ℤ

/-- Materialised alert decision, the ephemeral AlertEvent: the data
handed to the message formatter and dispatch when all gates pass.
Formatting itself reads the wall clock and is left outside the pure
embedding. -/
structure AlertEvent where
  symbol : String
  action : String
  bucket : String
  lots : Nat
  oi_chg : ℤ
  oi_roc : ℚ
  moneyness : String

/-- Whole scanner state: the per-symbol store symbol_data_state and the
future_prices cache (total functions; only monitored symbols and the
four underlyings are ever read or written). -/
structure ScannerState where
  symbol_data_state : String → SymbolState
  future_prices : Underlying → ℚ

/-- Per-tick processing, embedding process_data of gdfl_scanner.py:
drop on missing or unknown symbol or missing price; future symbols
update only the future-price cache (when the price is positive) and
terminate; option symbols shift the state window, then run the warm-up,
zero-delta, rate-of-change, lots, bucket and moneyness gates, producing
an alert event only when every gate passes. -/
def process_data (st : ScannerState) (data : Tick) :
    ScannerState × Option AlertEvent :=
  match data.InstrumentIdentifier with
  | none => (st, none)
  | some symbol =>
    if symbol = "" ∨ symbol ∉ SYMBOLS_TO_MONITOR then (st, none)
    else
      match data.LastTradePrice with
      | none => (st, none)
      | some new_price =>
        if containsStr symbol "FUT" then
          match identifyUnderlying symbol with
          | none => (st, none)
          | some underlying =>
            if 0 < new_price then
              ({ st with future_prices :=
                  fun u => if u = underlying then new_price
                    else st.future_prices u }, none)
            else (st, none)
        else
          match data.OpenInterest with
          | none => (st, none)
          | some new_oi =>
            let prev := st.symbol_data_state symbol
            let newState : SymbolState :=
              { price := new_price, price_prev := prev.price,
                oi := new_oi, oi_prev := prev.oi }
            let st1 : ScannerState :=
              { st with symbol_data_state :=
                  fun s => if s = symbol then newState
                    else st.symbol_data_state s }
            if newState.oi_prev = 0 then (st1, none)
            else
              let oi_chg := newState.oi - newState.oi_prev
              if oi_chg = 0 then (st1, none)
              else
                let price_chg := newState.price - newState.price_prev
                let oi_roc := oi_roc_of oi_chg newState.oi_prev
                if OI_ROC_THRESHOLD < |oi_roc| then
                  let lots := lots_from_oi_change symbol oi_chg
                  if 50 < lots then
                    let bucket := lot_bucket lots
                    if bucket ≠ "IGNORE" then
                      let moneyness :=
                        get_option_moneyness symbol st.future_prices
                      if moneyness = "ITM" ∨ moneyness = "ATM" then
                        (st1, some
                          { symbol := symbol,
                            action := classify_option oi_chg price_chg symbol,
                            bucket := bucket, lots := lots,
                            oi_chg := oi_chg, oi_roc := oi_roc,
                            moneyness := moneyness })
                      else (st1, none)
                    else (st1, none)
                  else (st1, none)
                else (st1, none)

/-- Modelled from the spec: the decision table of section 4.3, rows
checked in order with first match winning, and Indecisive Movement as
the fallback for every remaining pair. -/
def classifyTableSpec (oi_delta : ℤ) (price_delta : ℚ) : String :=
  if price_delta = 0 ∧ 0 < oi_delta then "WRITING / HEDGING"
  else if price_delta = 0 ∧ oi_delta < 0 then
    "POSITION UNWINDING / PROFIT BOOKING"
  else if 0 < oi_delta ∧ 0 < price_delta then
    "BUYERS DOMINANT (LONG BUILD-UP)"
  else if 0 < oi_delta ∧ price_delta < 0 then
    "WRITERS DOMINANT (SHORT / PUT WRITING)"
  else if oi_delta < 0 ∧ 0 < price_delta then "SHORT COVERING"
  else if oi_delta < 0 ∧ price_delta < 0 then "LONG UNWINDING"
  else "Indecisive Movement"

/-- Modelled from the spec: the decimal digit characters of a natural
number, most significant first.  The repository receives its symbols
from configuration; the round-trip property of section 8 speaks of a
generated symbol, whose strike part is exactly these digits. -/
def toDigitChars (n : ℕ) : List Char :=
  ((Nat.digits 10 n).map Nat.digitChar).reverse

/-- Modelled from the spec: the two-letter suffix of an option type. -/
def suffixChars : OptType → List Char
  | OptType.CE => ['C', 'E']
  | OptType.PE => ['P', 'E']

/-- Modelled from the spec: an option symbol assembled from a prefix
(underlying plus expiry, ending in a non-digit month letter), a
two-digit year, the decimal digits of the strike, and the CE or PE
suffix. -/
def mkOptionSymbol (pre : List Char) (y1 y2 : Char) (K : ℕ)
    (ty : OptType) : String :=
  ⟨pre ++ [y1, y2] ++ toDigitChars K ++ suffixChars ty⟩

/-- C4: the signal classifier classify_option is a total function, hence
deterministic and never failing, and on every (oi_delta, price_delta)
pair it returns exactly the label of the first matching row of the
section 4.3 decision table, with Indecisive Movement on every remaining
pair (the zero OI delta column); the unused symbol argument does not
influence the result. -/
theorem classify_option_eq_table (oi_delta : ℤ) (price_delta : ℚ)
    (symbol : String) :
    classify_option oi_delta price_delta symbol =
      classifyTableSpec oi_delta price_delta := by
  unfold classify_option classifyTableSpec
  rcases lt_trichotomy price_delta 0 with hp | hp | hp <;>
    rcases lt_trichotomy oi_delta 0 with ho | ho | ho <;>
      simp_all [hp, ho, le_of_lt, not_lt_of_gt, lt_asymm, lt_irrefl]

/-- C8: the lot computation equals the floor of the absolute OI delta
divided by the resolved lot size (first configured underlying name
contained in the symbol, else the default), is never negative, yields 0
on a zero configured lot size instead of failing, and the OI
rate-of-change computation falls back to 0 on a zero divisor. -/
theorem lots_floor_and_guards (symbol : String) (oi_delta : ℤ)
    (lotSizes : List (String × Nat)) (deflt : Nat) :
    lots_from_oi_change symbol oi_delta =
      oi_delta.natAbs / resolveLotSizeGen LOT_SIZES DEFAULT_LOT_SIZE symbol
    ∧ 0 ≤ (lots_from_oi_change symbol oi_delta : ℤ)
    ∧ (resolveLotSizeGen lotSizes deflt symbol = 0 →
        lots_from_oi_change_gen lotSizes deflt symbol oi_delta = 0)
    ∧ oi_roc_of oi_delta 0 = 0 := by
  refine ⟨?_, Int.natCast_nonneg _, ?_, ?_⟩
  · simp only [lots_from_oi_change, lots_from_oi_change_gen]
    split_ifs with h
    · rw [h, Nat.div_zero]
    · rfl
  · intro h
    simp only [lots_from_oi_change_gen, h]
    simp
  · simp [oi_roc_of]

/-- Witness for C8 at concrete inputs: a BANKNIFTY option symbol with an
OI drop of 1800 contracts gives 60 lots of size 30, and a configured
zero lot size gives 0 lots. -/
theorem lots_floor_and_guards_w :
    lots_from_oi_change "BANKNIFTY27JAN2660000CE" (-1800) = 60 ∧
    lots_from_oi_change_gen [("A", 0)] 0 "BANKA" 999 = 0 := by
  constructor
  · have h := (lots_floor_and_guards "BANKNIFTY27JAN2660000CE" (-1800) [] 0).1
    rw [h]; decide
  · exact (lots_floor_and_guards "BANKA" 999 [("A", 0)] 0).2.2.1 (by decide)

/-- C5: on a non-future symbol with an identified underlying and a
parseable strike and option type, the moneyness classifier returns OTM
on an unknown (zero) future price, else ATM inside the half-percent
band, else ITM exactly for a call below or a put above the future
price, else OTM; being a function of the symbol and price information
alone it is deterministic across calls. -/
theorem moneyness_characterisation (symbol : String) (fp : Underlying → ℚ)
    (u : Underlying) (K : ℕ) (ty : OptType)
    (hfut : containsStr symbol "FUT" = false)
    (hu : identifyUnderlying symbol = some u)
    (hparse : parseStrikeType symbol = some (K, ty)) :
    get_option_moneyness symbol fp =
      (if fp u = 0 then "OTM"
       else if |fp u - (K : ℚ)| ≤ (5 / 1000 : ℚ) * fp u then "ATM"
       else if (ty = OptType.CE ∧ (K : ℚ) < fp u)
           ∨ (ty = OptType.PE ∧ fp u < (K : ℚ)) then "ITM"
       else "OTM") := by
  simp only [get_option_moneyness, hu, hparse, hfut, Bool.false_eq_true,
    if_false]
  rw [mul_comm ((5 : ℚ) / 1000) (fp u)]

/-- Witness for C5 at a concrete input: the 60000 call against a future
price of 60000 instantiates the characterisation. -/
theorem moneyness_characterisation_w :
    get_option_moneyness "BANKNIFTY27JAN2660000CE" (fun _ => 60000) =
      (if (60000 : ℚ) = 0 then "OTM"
       else if |(60000 : ℚ) - ((60000 : ℕ) : ℚ)| ≤ (5 / 1000 : ℚ) * 60000
         then "ATM"
       else if (OptType.CE = OptType.CE ∧ ((60000 : ℕ) : ℚ) < 60000)
           ∨ (OptType.CE = OptType.PE ∧ (60000 : ℚ) < ((60000 : ℕ) : ℚ))
         then "ITM"
       else "OTM") :=
  moneyness_characterisation "BANKNIFTY27JAN2660000CE" (fun _ => 60000)
    Underlying.BANKNIFTY 60000 OptType.CE (by decide) (by decide) (by decide)

/-- Counterexample to C6 as stated: BANKNIFTYXX is not a future symbol,
its underlying is identified as BANKNIFTY, its strike and type cannot be
parsed, yet with a zero cached future price the classifier returns OTM,
not N/A, because the zero-price fail-safe runs before parsing. -/
theorem moneyness_na_counterexample :
    containsStr "BANKNIFTYXX" "FUT" = false ∧
    identifyUnderlying "BANKNIFTYXX" = some Underlying.BANKNIFTY ∧
    parseStrikeType "BANKNIFTYXX" = none ∧
    get_option_moneyness "BANKNIFTYXX" (fun _ => 0) = "OTM" ∧
    get_option_moneyness "BANKNIFTYXX" (fun _ => 0) ≠ "N/A" := by
  have h : get_option_moneyness "BANKNIFTYXX" (fun _ => 0) = "OTM" := by
    have h1 : identifyUnderlying "BANKNIFTYXX" = some Underlying.BANKNIFTY := by
      decide
    simp only [get_option_moneyness, h1]
    rw [if_neg (by decide)]
    norm_num
  refine ⟨by decide, by decide, by decide, h, ?_⟩
  rw [h]; decide

/-- C6 as amended: the moneyness classifier returns N/A for every future
symbol, for every symbol without an identifiable underlying, and, when
the cached future price of the identified underlying is nonzero, for
every non-future symbol whose strike and type cannot be parsed; with a
zero cached price the zero-price fail-safe answers OTM before parsing. -/
theorem moneyness_na_cases :
    (∀ (s : String) (fp : Underlying → ℚ), containsStr s "FUT" = true →
      get_option_moneyness s fp = "N/A") ∧
    (∀ (s : String) (fp : Underlying → ℚ), identifyUnderlying s = none →
      get_option_moneyness s fp = "N/A") ∧
    (∀ (s : String) (fp : Underlying → ℚ) (u : Underlying),
      containsStr s "FUT" = false → identifyUnderlying s = some u →
      fp u ≠ 0 → parseStrikeType s = none →
      get_option_moneyness s fp = "N/A") := by
  refine ⟨?_, ?_, ?_⟩
  · intro s fp h
    simp only [get_option_moneyness, h, if_true]
  · intro s fp h
    simp only [get_option_moneyness, h]
    split_ifs <;> rfl
  · intro s fp u hfut hu hzero hparse
    simp only [get_option_moneyness, hfut, Bool.false_eq_true, if_false, hu,
      hzero, hparse]

/-- Witness for C6 as amended, at one concrete input per case: a future
symbol, a symbol with no known underlying, and an unparseable option
symbol of a known underlying with a nonzero cached future price. -/
theorem moneyness_na_cases_w :
    get_option_moneyness "BANKNIFTY27JAN26FUT" (fun _ => 5) = "N/A" ∧
    get_option_moneyness "XYZ" (fun _ => 0) = "N/A" ∧
    get_option_moneyness "BANKNIFTYXY" (fun _ => 7) = "N/A" :=
  ⟨moneyness_na_cases.1 "BANKNIFTY27JAN26FUT" (fun _ => 5) (by decide),
   moneyness_na_cases.2.1 "XYZ" (fun _ => 0) (by decide),
   moneyness_na_cases.2.2 "BANKNIFTYXY" (fun _ => 7) Underlying.BANKNIFTY
     (by decide) (by decide) (by norm_num) (by decide)⟩

/-- Helper: every monitored symbol is a nonempty string, so the falsy
check on the symbol never drops a monitored tick. -/
theorem mem_symbols_ne_empty {s : String} (h : s ∈ SYMBOLS_TO_MONITOR) :
    s ≠ "" := by
  intro he
  subst he
  exact absurd h (by decide)

/-- C2: a tick for a monitored option symbol processed while the stored
open interest that becomes oi_prev after the shift is zero (the sentinel
for no prior observation) never produces an alert, whatever the price
and open interest the tick carries. -/
theorem warm_up_no_alert (st : ScannerState) (data : Tick) (symbol : String)
    (p : ℚ) (oi : ℤ)
    (hid : data.InstrumentIdentifier = some symbol)
    (hm : symbol ∈ SYMBOLS_TO_MONITOR)
    (hfut : containsStr symbol "FUT" = false)
    (hp : data.LastTradePrice = some p)
    (hoi : data.OpenInterest = some oi)
    (hprev : (st.symbol_data_state symbol).oi = 0) :
    (process_data st data).2 = none := by
  have hne := mem_symbols_ne_empty hm
  simp only [process_data, hid, hp, hoi, hfut, Bool.false_eq_true, if_false]
  rw [if_neg (by simp [hm, hne])]
  simp only [hprev, if_pos]

/-- Witness for C2 at a concrete input: the very first tick for a
monitored option, with a huge open interest, produces no alert. -/
theorem warm_up_no_alert_w :
    (process_data
      { symbol_data_state := fun _ => initialSymbolState,
        future_prices := fun _ => 60000 }
      { InstrumentIdentifier := some "BANKNIFTY27JAN2660000CE",
        LastTradePrice := some 500, OpenInterest := some 999999 }).2 = none :=
  warm_up_no_alert _ _ "BANKNIFTY27JAN2660000CE" 500 999999 rfl (by decide)
    (by decide) rfl rfl rfl

/-- C1: a tick for a monitored option symbol carrying both a price and
an open interest dispatches an alert if and only if, after the state
update, the previous open interest is nonzero, the OI delta is nonzero,
the absolute OI rate of change exceeds the threshold, the lot count
exceeds 50, the bucket is not IGNORE, and the moneyness is ITM or ATM;
failing any one gate yields no alert. -/
theorem alert_iff_gates (st : ScannerState) (data : Tick) (symbol : String)
    (p : ℚ) (oi : ℤ)
    (hid : data.InstrumentIdentifier = some symbol)
    (hm : symbol ∈ SYMBOLS_TO_MONITOR)
    (hfut : containsStr symbol "FUT" = false)
    (hp : data.LastTradePrice = some p)
    (hoi : data.OpenInterest = some oi) :
    (process_data st data).2.isSome = true ↔
      ((st.symbol_data_state symbol).oi ≠ 0 ∧
       oi - (st.symbol_data_state symbol).oi ≠ 0 ∧
       OI_ROC_THRESHOLD <
         |oi_roc_of (oi - (st.symbol_data_state symbol).oi)
           (st.symbol_data_state symbol).oi| ∧
       50 < lots_from_oi_change symbol
         (oi - (st.symbol_data_state symbol).oi) ∧
       lot_bucket (lots_from_oi_change symbol
         (oi - (st.symbol_data_state symbol).oi)) ≠ "IGNORE" ∧
       (get_option_moneyness symbol st.future_prices = "ITM" ∨
        get_option_moneyness symbol st.future_prices = "ATM")) := by
  have hne := mem_symbols_ne_empty hm
  simp only [process_data, hid, hp, hoi, hfut, Bool.false_eq_true, if_false]
  rw [if_neg (by simp [hm, hne])]
  split_ifs with h1 h2 h3 h4 h5 h6 <;> simp_all

/-- Witness for C1 at a concrete input: all six gates pass (delta 2000
over previous OI 1000 gives 200 percent, 66 lots of 30, bucket LOW,
strike at the money) and the alert is dispatched. -/
theorem alert_iff_gates_w :
    (process_data
      { symbol_data_state := fun s =>
          if s = "BANKNIFTY27JAN2660000CE" then
            { price := 100, price_prev := 90, oi := 1000, oi_prev := 500 }
          else initialSymbolState,
        future_prices := fun _ => 60000 }
      { InstrumentIdentifier := some "BANKNIFTY27JAN2660000CE",
        LastTradePrice := some 105, OpenInterest := some 3000 }).2.isSome
      = true := by
  refine (alert_iff_gates _ _ "BANKNIFTY27JAN2660000CE" 105 3000 rfl
    (by decide) (by decide) rfl rfl).mpr ⟨?_, ?_, ?_, ?_, ?_, ?_⟩
  · decide
  · decide
  · norm_num [oi_roc_of, OI_ROC_THRESHOLD]
  · decide
  · decide
  · right
    have h1 : identifyUnderlying "BANKNIFTY27JAN2660000CE" =
        some Underlying.BANKNIFTY := by decide
    have h2 : parseStrikeType "BANKNIFTY27JAN2660000CE" =
        some (60000, OptType.CE) := by decide
    simp only [get_option_moneyness, h1, h2]
    norm_num
    all_goals decide

/-- Counterexample to C3 as stated: a monitored future-symbol tick that
carries a LastTradePrice of 0 leaves the future-price cache untouched
(still 60000, not the tick price 0), because the update is guarded by a
positivity check on the price. -/
theorem future_tick_counterexample :
    (process_data
      { symbol_data_state := fun _ => initialSymbolState,
        future_prices := fun _ => 60000 }
      { InstrumentIdentifier := some "BANKNIFTY27JAN26FUT",
        LastTradePrice := some 0,
        OpenInterest := none }).1.future_prices Underlying.BANKNIFTY = 60000 ∧
    (60000 : ℚ) ≠ 0 := by
  constructor
  · have h1 : identifyUnderlying "BANKNIFTY27JAN26FUT" =
        some Underlying.BANKNIFTY := by decide
    simp only [process_data, h1]
    rw [if_neg (by decide), if_pos (by decide), if_neg (by norm_num)]
  · norm_num

/-- C3 as amended: a monitored future-symbol tick carrying a price never
produces an alert and never touches the per-option state store; it
updates exactly the identified underlying's future-price entry to the
tick price when that price is positive, and leaves the whole cache
unchanged otherwise. -/
theorem future_tick_routing (st : ScannerState) (data : Tick)
    (symbol : String) (p : ℚ) (u : Underlying)
    (hid : data.InstrumentIdentifier = some symbol)
    (hm : symbol ∈ SYMBOLS_TO_MONITOR)
    (hfut : containsStr symbol "FUT" = true)
    (hp : data.LastTradePrice = some p)
    (hu : identifyUnderlying symbol = some u) :
    (process_data st data).2 = none ∧
    (process_data st data).1.symbol_data_state = st.symbol_data_state ∧
    (0 < p →
      (process_data st data).1.future_prices u = p ∧
      ∀ v, v ≠ u → (process_data st data).1.future_prices v =
        st.future_prices v) ∧
    (¬ 0 < p → (process_data st data).1.future_prices = st.future_prices) := by
  have hne := mem_symbols_ne_empty hm
  simp only [process_data, hid, hp, hfut, hu, if_true]
  rw [if_neg (by simp [hm, hne])]
  split_ifs with hpos
  · exact ⟨rfl, rfl, fun _ => ⟨by simp, fun v hv => by simp [hv]⟩,
      fun h => absurd hpos h⟩
  · exact ⟨rfl, rfl, fun h => absurd h hpos, fun _ => rfl⟩

/-- Witness for C3 as amended at a concrete input: a future tick with a
positive price produces no alert (and, by the theorem, updates only the
SBIN cache entry). -/
theorem future_tick_routing_w :
    (process_data
      { symbol_data_state := fun _ => initialSymbolState,
        future_prices := fun _ => 0 }
      { InstrumentIdentifier := some "SBIN27JAN26FUT",
        LastTradePrice := some 1020,
        OpenInterest := none }).2 = none ∧
    (0 : ℚ) < 1020 := by
  refine ⟨?_, by norm_num⟩
  exact (future_tick_routing _ _ "SBIN27JAN26FUT" 1020 Underlying.SBIN
    rfl (by decide) (by decide) rfl (by decide)).1

/-- C7: the per-option store is written exactly for a monitored option
tick carrying both price and open interest, in which case the touched
entry holds the tick values with the previous values shifted into the
window slots (also for ticks later suppressed by a gate) and every other
entry is unchanged; any other tick leaves the whole store unchanged and
produces no alert. -/
theorem state_shift_iff :
    (∀ (st : ScannerState) (data : Tick) (symbol : String) (p : ℚ) (oi : ℤ),
      data.InstrumentIdentifier = some symbol →
      symbol ∈ SYMBOLS_TO_MONITOR →
      containsStr symbol "FUT" = false →
      data.LastTradePrice = some p →
      data.OpenInterest = some oi →
      (process_data st data).1.symbol_data_state symbol =
        { price := p, price_prev := (st.symbol_data_state symbol).price,
          oi := oi, oi_prev := (st.symbol_data_state symbol).oi } ∧
      ∀ s, s ≠ symbol → (process_data st data).1.symbol_data_state s =
        st.symbol_data_state s) ∧
    (∀ (st : ScannerState) (data : Tick),
      (¬ ∃ (symbol : String) (p : ℚ) (oi : ℤ),
        data.InstrumentIdentifier = some symbol ∧
        symbol ∈ SYMBOLS_TO_MONITOR ∧ containsStr symbol "FUT" = false ∧
        data.LastTradePrice = some p ∧ data.OpenInterest = some oi) →
      (process_data st data).1.symbol_data_state = st.symbol_data_state ∧
      (process_data st data).2 = none) := by
  constructor
  · intro st data symbol p oi hid hm hfut hp hoi
    have hne := mem_symbols_ne_empty hm
    simp only [process_data, hid, hp, hoi, hfut, Bool.false_eq_true, if_false]
    rw [if_neg (by simp [hm, hne])]
    constructor
    · split_ifs <;> simp
    · intro s hs
      split_ifs <;> simp [hs]
  · intro st data hno
    rcases hI : data.InstrumentIdentifier with _ | symbol
    · simp [process_data, hI]
    · by_cases hdrop : symbol = "" ∨ symbol ∉ SYMBOLS_TO_MONITOR
      · simp only [process_data, hI]
        rw [if_pos hdrop]
        exact ⟨rfl, rfl⟩
      · rcases hP : data.LastTradePrice with _ | pr
        · simp only [process_data, hI, hP]
          rw [if_neg hdrop]
          exact ⟨rfl, rfl⟩
        · by_cases hF : containsStr symbol "FUT" = true
          · simp only [process_data, hI, hP, hF, if_true]
            rw [if_neg hdrop]
            rcases hu : identifyUnderlying symbol with _ | u
            · simp [hu]
            · simp only [hu]
              split_ifs <;> simp
          · rcases hO : data.OpenInterest with _ | oi
            · have hF' : containsStr symbol "FUT" = false :=
                Bool.not_eq_true _ ▸ by simpa using hF
              simp only [process_data, hI, hP, hO, hF', Bool.false_eq_true,
                if_false]
              rw [if_neg hdrop]
              exact ⟨rfl, rfl⟩
            · exfalso
              apply hno
              rw [not_or, not_not] at hdrop
              have hF' : containsStr symbol "FUT" = false := by
                simpa using hF
              exact ⟨symbol, pr, oi, hI, hdrop.2, hF', hP, hO⟩

/-- Witness for C7 at concrete inputs: a complete option tick shifts the
window of its own entry, and the same tick with the open interest
missing leaves the store unchanged and produces no alert. -/
theorem state_shift_iff_w :
    (process_data
      { symbol_data_state := fun _ => initialSymbolState,
        future_prices := fun _ => 0 }
      { InstrumentIdentifier := some "SBIN27JAN26995CE",
        LastTradePrice := some 55,
        OpenInterest := some 4000 }).1.symbol_data_state "SBIN27JAN26995CE" =
      { price := 55, price_prev := 0, oi := 4000, oi_prev := 0 } ∧
    (process_data
      { symbol_data_state := fun _ => initialSymbolState,
        future_prices := fun _ => 0 }
      { InstrumentIdentifier := some "SBIN27JAN26995CE",
        LastTradePrice := some 55,
        OpenInterest := none }).2 = none := by
  constructor
  · exact (state_shift_iff.1 _ _ "SBIN27JAN26995CE" 55 4000 rfl (by decide)
      (by decide) rfl rfl).1
  · refine (state_shift_iff.2 _ _ ?_).2
    rintro ⟨s, p, oi, -, -, -, -, h⟩
    exact Option.noConfusion h

/-- Helper: digit characters produced for values below ten are decimal
digit characters. -/
theorem digitChar_isDigit {d : ℕ} (h : d < 10) :
    (Nat.digitChar d).isDigit = true := by
  interval_cases d <;> decide

/-- Helper: reading back the numeric value of a digit character below
ten recovers the digit. -/
theorem digitVal_digitChar {d : ℕ} (h : d < 10) :
    digitVal (Nat.digitChar d) = d := by
  interval_cases d <;> decide

/-- Helper: folding the decimal accumulator over a rendered digit list
computes the positional value of the digits on top of the shifted
accumulator. -/
theorem foldl_digits (L : List ℕ) (hL : ∀ d ∈ L, d < 10) (a : ℕ) :
    ((L.map Nat.digitChar).reverse).foldl (fun acc c => acc * 10 + digitVal c) a
      = a * 10 ^ L.length + Nat.ofDigits 10 L := by
  induction L generalizing a with
  | nil => simp
  | cons d T ih =>
      have hd : d < 10 := hL d (by simp)
      have hT : ∀ x ∈ T, x < 10 := fun x hx => hL x (by simp [hx])
      simp only [List.map_cons, List.reverse_cons, List.foldl_append,
        List.foldl_cons, List.foldl_nil, ih hT, digitVal_digitChar hd,
        Nat.ofDigits_cons, List.length_cons]
      ring

/-- Helper: parsing the rendered decimal digits of a natural number
recovers the number. -/
theorem natOfDigits_toDigitChars (n : ℕ) :
    natOfDigits (toDigitChars n) = n := by
  have h := foldl_digits (Nat.digits 10 n)
    (fun d hd => Nat.digits_lt_base (by norm_num) hd) 0
  simpa [natOfDigits, toDigitChars, Nat.ofDigits_digits] using h

/-- Helper: every rendered character is a decimal digit. -/
theorem toDigitChars_isDigit (n : ℕ) :
    ∀ c ∈ toDigitChars n, c.isDigit = true := by
  intro c hc
  simp only [toDigitChars, List.mem_reverse, List.mem_map] at hc
  obtain ⟨d, hd, rfl⟩ := hc
  exact digitChar_isDigit (Nat.digits_lt_base (by norm_num) hd)

/-- Helper: a positive number renders to at least one digit. -/
theorem toDigitChars_ne_nil {n : ℕ} (h : 0 < n) : toDigitChars n ≠ [] := by
  simp [toDigitChars, Nat.digits_ne_nil_iff_ne_zero, h.ne']

/-- Helper: takeWhile passes over a block that satisfies the predicate
throughout. -/
theorem takeWhile_append_all (p : Char → Bool) (l1 l2 : List Char)
    (h : ∀ x ∈ l1, p x = true) :
    (l1 ++ l2).takeWhile p = l1 ++ l2.takeWhile p := by
  induction l1 with
  | nil => simp
  | cons a t ih =>
      simp only [List.cons_append, List.takeWhile_cons, h a (by simp)]
      rw [if_pos trivial, ih (fun x hx => h x (by simp [hx]))]

/-- Helper: the strike-run parser on a reversed digit block followed by
the two year digits and a non-digit boundary returns exactly the value
of the digit block. -/
theorem parseRun_eval (Drev : List Char) (y1 y2 c : Char) (tl : List Char)
    (ty : OptType)
    (hD : ∀ x ∈ Drev, Char.isDigit x = true)
    (h1 : y1.isDigit = true) (h2 : y2.isDigit = true)
    (hc : c.isDigit = false)
    (hlen : 1 ≤ Drev.length) :
    parseRun (Drev ++ ([y2, y1] ++ (c :: tl))) ty =
      some (natOfDigits Drev.reverse, ty) := by
  have hyd : ∀ x ∈ [y2, y1], Char.isDigit x = true := by
    intro x hx
    rcases List.mem_cons.mp hx with rfl | hx
    · exact h2
    · rcases List.mem_cons.mp hx with rfl | hx
      · exact h1
      · exact absurd hx (List.not_mem_nil x)
  have ht : (Drev ++ ([y2, y1] ++ (c :: tl))).takeWhile Char.isDigit =
      Drev ++ [y2, y1] := by
    rw [takeWhile_append_all _ _ _ hD, takeWhile_append_all _ _ _ hyd]
    simp [List.takeWhile_cons, hc]
  simp only [parseRun, ht]
  rw [if_pos (by simp; omega)]
  simp

/-- C10: round-trip of the symbol shape — a symbol generated from a
prefix ending in a non-digit, a two-digit year, the decimal digits of a
positive strike and a CE or PE suffix parses back to exactly the
original strike value and option type. -/
theorem symbol_round_trip (pre : List Char) (c y1 y2 : Char) (K : ℕ)
    (ty : OptType) (hc : c.isDigit = false) (h1 : y1.isDigit = true)
    (h2 : y2.isDigit = true) (hK : 0 < K) :
    parseStrikeType (mkOptionSymbol (pre ++ [c]) y1 y2 K ty) =
      some (K, ty) := by
  have hD : ∀ x ∈ (toDigitChars K).reverse, Char.isDigit x = true := by
    intro x hx
    exact toDigitChars_isDigit K x (List.mem_reverse.mp hx)
  have hlen : 1 ≤ (toDigitChars K).reverse.length := by
    rw [List.length_reverse]
    cases hE : toDigitChars K with
    | nil => exact absurd hE (toDigitChars_ne_nil hK)
    | cons a l => simp
  have hrev : (mkOptionSymbol (pre ++ [c]) y1 y2 K ty).data.reverse =
      (suffixChars ty).reverse ++
        ((toDigitChars K).reverse ++ ([y2, y1] ++ (c :: pre.reverse))) := by
    show ((pre ++ [c]) ++ [y1, y2] ++ toDigitChars K ++
      suffixChars ty).reverse = _
    simp
  rw [parseStrikeType, hrev]
  cases ty with
  | CE =>
      show parseRun ((toDigitChars K).reverse ++ ([y2, y1] ++
        (c :: pre.reverse))) OptType.CE = _
      rw [parseRun_eval _ _ _ _ _ _ hD h1 h2 hc hlen]
      rw [List.reverse_reverse, natOfDigits_toDigitChars]
  | PE =>
      show parseRun ((toDigitChars K).reverse ++ ([y2, y1] ++
        (c :: pre.reverse))) OptType.PE = _
      rw [parseRun_eval _ _ _ _ _ _ hD h1 h2 hc hlen]
      rw [List.reverse_reverse, natOfDigits_toDigitChars]

/-- Witness for C10 at a concrete input: generating the monitored 60000
call symbol and parsing it back recovers strike and type. -/
theorem symbol_round_trip_w :
    parseStrikeType (mkOptionSymbol ("BANKNIFTY27JA".data ++ ['N']) '2' '6'
      60000 OptType.CE) = some (60000, OptType.CE) :=
  symbol_round_trip "BANKNIFTY27JA".data 'N' '2' '6' 60000 OptType.CE
    (by decide) (by decide) (by decide) (by decide)

end BankNiftyScanner
